import Mathlib

/-!
Verification of the Mjolnir smart-contract analyzer frontend.

The repository is a Next.js application whose analysis and conversion
engines are external binaries invoked over JSON pipes.  The TypeScript
glue (src/lib/analyzer.ts, src/app/actions.ts, src/lib/converter.ts,
the API routes and the page handlers) is embedded shallowly below:
external effects (existsSync, execSync, JSON.parse, Math.random) are
passed in as explicit environment records, and thrown exceptions are
modelled with an explicit outcome type.  The external Rust analyzer and
converter binaries are not part of the inspected sources; where a claim
depends on their behaviour they are modelled from the design document
(definitions marked as modelled from the spec).
-/

/-- Issue severity, matching the `Severity` union in src/lib/analyzer.ts. -/
inductive Severity where
  | high
  | medium
  | low
deriving DecidableEq

/-- An analysis issue, matching `Issue` in src/lib/analyzer.ts. -/
structure Issue where
  severity : Severity
  message : String
  line : Option Nat
  recommendation : Option String
deriving DecidableEq

/-- The four category metrics, matching `Metrics` in src/lib/analyzer.ts.
TypeScript numbers produced by the code are integers (Math.floor), so we
use `Int`. -/
structure Metrics where
  performance : Int
  security : Int
  gas_efficiency : Int
  code_quality : Int
deriving DecidableEq

/-- The analysis response, matching `AnalysisResults` in src/lib/analyzer.ts. -/
structure AnalysisResults where
  score : Int
  metrics : Metrics
  issues : List Issue
deriving DecidableEq

/-- Analyzer configuration, matching `AnalyzerConfig` in src/lib/analyzer.ts. -/
structure AnalyzerConfig where
  enabled_rules : List String
  custom_weights : Option (List (String × Rat))
deriving DecidableEq

/-- Conversion configuration, matching `ConversionConfig` in src/lib/converter.ts.
The TypeScript type of `target` is the union "ink" | "solidity", but union
types are erased at runtime, so the runtime value is an arbitrary string. -/
structure ConversionConfig where
  target : String
  optimize : Option Bool
deriving DecidableEq

/-- Conversion response, matching `ConversionResult` in src/lib/converter.ts. -/
structure ConversionResult where
  convertedCode : String
  targetType : String
  compilationOutput : Option String
deriving DecidableEq

/-- Outcome of running a TypeScript async function body: either a returned
value (`none` models a returned `null`) or a thrown exception. -/
inductive TsOutcome (α : Type) where
  | value : Option α → TsOutcome α
  | thrown : String → TsOutcome α

/-- Does the character list `p` occur as a prefix of `s`?  Model of the
initial-segment test underlying `String.includes`. -/
def startsWithL : List Char → List Char → Bool
  | _, [] => true
  | [], _ :: _ => false
  | c :: cs, p :: ps => c == p && startsWithL cs ps

/-- Does the character list `p` occur as a contiguous infix of `s`? -/
def hasInfixL : List Char → List Char → Bool
  | s, p =>
    if startsWithL s p then true
    else
      match s with
      | [] => false
      | _ :: cs => hasInfixL cs p

/-- Model of JavaScript `s.includes(pat)` for nonempty `pat`. -/
def containsSub (s pat : String) : Bool := hasInfixL s.data pat.data

/-- Drop leading and trailing whitespace from a character list. -/
def trimChars (l : List Char) : List Char :=
  ((l.dropWhile Char.isWhitespace).reverse.dropWhile Char.isWhitespace).reverse

/-- Model of JavaScript `s.trim()`. -/
def trimS (s : String) : String := String.mk (trimChars s.data)

/-- Fixed message of the first mock issue (src/lib/analyzer.ts line 105). -/
def mockMsgHigh : String := "Potential reentrancy vulnerability in withdraw function"

/-- Fixed recommendation of the first mock issue. -/
def mockRecHigh : String := "Implement checks-effects-interactions pattern"

/-- Fixed message of the second mock issue. -/
def mockMsgMedium : String := "Inefficient storage usage"

/-- Fixed recommendation of the second mock issue. -/
def mockRecMedium : String := "Consider using packed storage or a more efficient data structure"

/-- Fixed message of the third mock issue. -/
def mockMsgLow : String := "Missing event emission after state change"

/-- Fixed recommendation of the third mock issue. -/
def mockRecLow : String :=
  "Emit events after significant state changes for better off-chain tracking"

/-- The fixed three-issue list returned by `getMockAnalysisResults`
(src/lib/analyzer.ts lines 102-123): high severity at line 42, medium at
line 56, low at line 78. -/
def mockIssues : List Issue :=
  [ { severity := Severity.high, message := mockMsgHigh,
      line := some 42, recommendation := some mockRecHigh },
    { severity := Severity.medium, message := mockMsgMedium,
      line := some 56, recommendation := some mockRecMedium },
    { severity := Severity.low, message := mockMsgLow,
      line := some 78, recommendation := some mockRecLow } ]

/-- `getMockAnalysisResults` (src/lib/analyzer.ts lines 93-125).  Each of
the five `Math.floor(70 + Math.random() * 30)` expressions consumes one
draw of `Math.random()`; the draws are passed in as `rand : Fin 5 → ℚ`,
each draw lying in `[0, 1)`.  `Math.floor` is the rational floor. -/
def getMockAnalysisResults (code : String) (rand : Fin 5 → Rat) : AnalysisResults :=
  { score := ⌊70 + rand 0 * 30⌋,
    metrics :=
      { performance := ⌊70 + rand 1 * 30⌋,
        security := ⌊70 + rand 2 * 30⌋,
        gas_efficiency := ⌊70 + rand 3 * 30⌋,
        code_quality := ⌊70 + rand 4 * 30⌋ },
    issues := mockIssues }

namespace Lib

/-- Environment observed by `analyzeContract` in src/lib/analyzer.ts:
the `existsSync(ANALYZER_PATH)` result, the `execSync` invocation of the
analyzer binary on the JSON-stringified request (which may throw, modelled
as `Except.error`), the `JSON.parse` of its stdout (which may throw), and
the stream of `Math.random()` draws used by the mock fallback. -/
structure AnalyzerEnv where
  binaryExists : Bool
  exec : String → Option AnalyzerConfig → Except String String
  parse : String → Except String AnalysisResults
  rand : Fin 5 → Rat

/-- `analyzeContract` (src/lib/analyzer.ts lines 58-85): if the binary is
missing, return mock data; otherwise run the binary and parse its output;
any thrown error falls back to mock data via the enclosing try/catch. -/
def analyzeContract (env : AnalyzerEnv) (code : String)
    (config : Option AnalyzerConfig) : AnalysisResults :=
  if !env.binaryExists then getMockAnalysisResults code env.rand
  else
    match env.exec code config with
    | Except.error _ => getMockAnalysisResults code env.rand
    | Except.ok response =>
      match env.parse response with
      | Except.error _ => getMockAnalysisResults code env.rand
      | Except.ok results => results

end Lib

namespace Actions

/-- Environment observed by the server action `analyzeContract` in
src/app/actions.ts: `existsSync(ANALYZER_PATH)`, the `execSync` process
invocation, and the `JSON.parse` of the response. -/
structure ActionEnv where
  binaryExists : Bool
  exec : String → Option AnalyzerConfig → Except String String
  parse : String → Except String AnalysisResults

/-- The try-block body of the server action (src/app/actions.ts lines
22-33), before the catch.  The second component records whether the
external process was spawned. -/
def analyzeRun (env : ActionEnv) (code : String)
    (config : Option AnalyzerConfig) : TsOutcome AnalysisResults × Bool :=
  if !env.binaryExists then (TsOutcome.value none, false)
  else
    match env.exec code config with
    | Except.error e => (TsOutcome.thrown e, true)
    | Except.ok response =>
      match env.parse response with
      | Except.error e => (TsOutcome.thrown e, true)
      | Except.ok results => (TsOutcome.value (some results), true)

/-- `analyzeContract` (src/app/actions.ts lines 18-38): the try/catch
converts any thrown error into a returned `null`. -/
def analyzeContract (env : ActionEnv) (code : String)
    (config : Option AnalyzerConfig) : TsOutcome AnalysisResults × Bool :=
  match analyzeRun env code config with
  | (TsOutcome.thrown _, spawned) => (TsOutcome.value none, spawned)
  | out => out

end Actions

namespace Onchain

/-- Environment observed by `convertContract` in src/lib/converter.ts:
the `execSync` invocation of the converter binary (which throws on a
non-zero exit) and the `JSON.parse` of its stdout. -/
structure ConverterEnv where
  exec : String → ConversionConfig → Except String String
  parse : String → Except String ConversionResult

/-- The try-block body of `convertContract` (src/lib/converter.ts lines
49-56), before the catch. -/
def convertRun (env : ConverterEnv) (code : String)
    (config : ConversionConfig) : TsOutcome ConversionResult :=
  match env.exec code config with
  | Except.error e => TsOutcome.thrown e
  | Except.ok response =>
    match env.parse response with
    | Except.error e => TsOutcome.thrown e
    | Except.ok result => TsOutcome.value (some result)

/-- `convertContract` (src/lib/converter.ts lines 45-61): the try/catch
converts any thrown error into a returned `null`. -/
def convertContract (env : ConverterEnv) (code : String)
    (config : ConversionConfig) : TsOutcome ConversionResult :=
  match convertRun env code config with
  | TsOutcome.thrown _ => TsOutcome.value none
  | out => out

end Onchain

/-- The Ink! contract attribute searched for by the page handlers. -/
def inkAttrLong : String := "#[ink::contract]"

/-- The short contract attribute searched for by the page handlers. -/
def inkAttrShort : String := "#[contract]"

/-- The Solidity structural token searched for by the page handlers. -/
def tokenContract : String := "contract"

/-- The `pragma` token named by the design document as a Solidity cue. -/
def tokenPragma : String := "pragma"

/-- The opening-brace token searched for by the page handlers. -/
def tokenBrace : String := "\x7b"

namespace Page

/-- Outcome of a page-level analyze handler: either an error toast with a
diagnostic (analysis never invoked) or the invocation of the analyzer. -/
inductive HandleOutcome where
  | rejected : String → HandleOutcome
  | analyzed : HandleOutcome
deriving DecidableEq

/-- Diagnostic shown when the textarea is empty. -/
def msgNoCode : String := "No contract code provided"

/-- Diagnostic of the Ink!-only page handler. -/
def msgMissingInk : String := "Invalid contract: Missing ink! contract attribute"

/-- Diagnostic of the two-dialect page handler. -/
def msgNotAContract : String := "Invalid contract: Must be either an Ink! or Solidity contract"

/-- `handleAnalyze` of the Ink!-only page (src/app/page.tsx variant,
lines 47-72): rejects empty input, then requires an Ink! contract
attribute before invoking the analyzer. -/
def handleAnalyzeV1 (contractCode : String) : HandleOutcome :=
  let trimmedCode := trimS contractCode
  if trimmedCode == "" then HandleOutcome.rejected msgNoCode
  else if !containsSub trimmedCode inkAttrLong && !containsSub trimmedCode inkAttrShort then
    HandleOutcome.rejected msgMissingInk
  else HandleOutcome.analyzed

/-- `handleAnalyze` of the two-dialect page (src/app/page.tsx variant,
lines 132-163): rejects empty input, then requires either an Ink!
contract attribute or Solidity structural cues (`contract` and an opening
brace) before invoking the analyzer. -/
def handleAnalyzeV2 (contractCode : String) : HandleOutcome :=
  let trimmedCode := trimS contractCode
  if trimmedCode == "" then HandleOutcome.rejected msgNoCode
  else
    let isInkContract :=
      containsSub trimmedCode inkAttrLong || containsSub trimmedCode inkAttrShort
    let isSolidityContract :=
      containsSub trimmedCode tokenContract && containsSub trimmedCode tokenBrace
    if !isInkContract && !isSolidityContract then
      HandleOutcome.rejected msgNotAContract
    else HandleOutcome.analyzed

end Page

/-- A JSON value bound by destructuring the request body; `undef` models
a missing field. -/
inductive JVal where
  | undef
  | null
  | str : String → JVal
  | num : Rat → JVal
  | bool : Bool → JVal
  | obj
deriving DecidableEq

/-- JavaScript truthiness test (`!code` is `falsy code`). -/
def falsy : JVal → Bool
  | JVal.undef => true
  | JVal.null => true
  | JVal.str s => s == ""
  | JVal.num q => q == 0
  | JVal.bool b => !b
  | JVal.obj => false

/-- JavaScript `typeof v === "string"`. -/
def isStringJ : JVal → Bool
  | JVal.str _ => true
  | _ => false

/-- Extract the string payload of a JSON value (total; callers only use
it under the string guard). -/
def strVal : JVal → String
  | JVal.str s => s
  | _ => ""

/-- An HTTP response of a route handler plus whether the analyzer was
invoked while producing it. -/
structure RouteResult where
  status : Nat
  errorBody : Bool
  analyzerInvoked : Bool
deriving DecidableEq

namespace RouteMock

/-- The POST handler of the mock analysis route (src/app/api variant
using the in-file mock `analyzeContract`), restricted to the code-field
guard: `if (!code || typeof code !== "string")` responds 400 with an
error body before any analysis runs. -/
def POST (code : JVal) : RouteResult :=
  if falsy code || !isStringJ code then
    { status := 400, errorBody := true, analyzerInvoked := false }
  else
    { status := 200, errorBody := false, analyzerInvoked := true }

end RouteMock

namespace RouteLib

/-- The POST handler of the analysis route that calls the analyzer
integration (src/app/api variant importing `@/lib/analyzer`): the same
code-field guard, then `analyzeContract` on the validated string. -/
def POST (env : Lib.AnalyzerEnv) (code : JVal)
    (config : Option AnalyzerConfig) : RouteResult × Option AnalysisResults :=
  if falsy code || !isStringJ code then
    ({ status := 400, errorBody := true, analyzerInvoked := false }, none)
  else
    ({ status := 200, errorBody := false, analyzerInvoked := true },
      some (Lib.analyzeContract env (strVal code) config))

end RouteLib

namespace SpecModel

/-- Metric category of the spec-modelled analyzer (design document 3). -/
inductive Cat where
  | performance
  | security
  | gas_efficiency
  | code_quality
deriving DecidableEq

/-- Modelled from the spec: the shared IR of the missing Rust analyzer
(design document 3), abstracted to the facts the built-in rule families
of 4.2 inspect — for each canonical pattern, the source line at which it
occurs, if it occurs at all. -/
structure ContractModel where
  reentrancyLine : Option Nat
  unboundedStorageLine : Option Nat
  missingEventLine : Option Nat
  uncheckedArithLine : Option Nat

/-- Modelled from the spec: an analysis rule of the rule engine (design
document 4.2) — a name, a fixed severity, message and recommendation, a
pure firing function on the IR returning the offending line, and the
metric categories it penalizes. -/
structure Rule where
  name : String
  severity : Severity
  message : String
  recommendation : Option String
  fires : ContractModel → Option Nat
  cats : List Cat

/-- Registered name of the reentrancy rule. -/
def reentrancyName : String := "reentrancy"

/-- Registered name of the unbounded-storage rule. -/
def unboundedStorageName : String := "unbounded_storage"

/-- Registered name of the missing-event rule. -/
def missingEventName : String := "missing_event"

/-- Registered name of the unchecked-arithmetic rule. -/
def uncheckedArithName : String := "unchecked_arithmetic"

/-- Modelled from the spec: reentrancy-pattern detection (design document
4.2) — high severity, penalizes security and performance. -/
def reentrancyRule : Rule :=
  { name := reentrancyName, severity := Severity.high,
    message := "External call before state write in a mutating function",
    recommendation := some "Apply the checks-effects-interactions pattern",
    fires := fun m => m.reentrancyLine,
    cats := [Cat.security, Cat.performance] }

/-- Modelled from the spec: unbounded storage growth detection — medium
severity, penalizes gas efficiency. -/
def unboundedStorageRule : Rule :=
  { name := unboundedStorageName, severity := Severity.medium,
    message := "Unbounded growth of an unkeyed sequence-valued storage field",
    recommendation := some "Bound the collection or key it by account",
    fires := fun m => m.unboundedStorageLine,
    cats := [Cat.gas_efficiency] }

/-- Modelled from the spec: missing event emission detection — low
severity, penalizes code quality. -/
def missingEventRule : Rule :=
  { name := missingEventName, severity := Severity.low,
    message := "State-mutating function emits no event",
    recommendation := some "Emit an event after significant state changes",
    fires := fun m => m.missingEventLine,
    cats := [Cat.code_quality] }

/-- Modelled from the spec: unchecked arithmetic detection — high
severity, penalizes security. -/
def uncheckedArithRule : Rule :=
  { name := uncheckedArithName, severity := Severity.high,
    message := "Unchecked arithmetic on an integer type without overflow guards",
    recommendation := some "Use checked or saturating arithmetic",
    fires := fun m => m.uncheckedArithLine,
    cats := [Cat.security] }

/-- Modelled from the spec: the static registration table of built-in
rules (design document 4.2, 9). -/
def builtinRules : List Rule :=
  [reentrancyRule, unboundedStorageRule, missingEventRule, uncheckedArithRule]

/-- Modelled from the spec: `enabled_rules` restricts execution to a
named subset; an empty or absent list means run all built-in rules. -/
def enabledRules : Option AnalyzerConfig → List Rule
  | none => builtinRules
  | some c =>
    if c.enabled_rules.isEmpty then builtinRules
    else builtinRules.filter (fun r => c.enabled_rules.contains r.name)

/-- The issue emitted when rule `r` fires at `line`. -/
def specIssue (r : Rule) (line : Nat) : Issue :=
  { severity := r.severity, message := r.message,
    line := some line, recommendation := r.recommendation }

/-- Modelled from the spec: the issues emitted by the enabled rules on a
model, in rule registration order. -/
def firedIssues (m : ContractModel) (cfg : Option AnalyzerConfig) : List Issue :=
  (enabledRules cfg).filterMap (fun r => (r.fires m).map (specIssue r))

/-- Rank of a severity for the reporting order: high before medium before
low. -/
def sevRank : Severity → Nat
  | Severity.high => 0
  | Severity.medium => 1
  | Severity.low => 2

/-- Sort key component for the optional source line. -/
def lineVal : Option Nat → Nat
  | none => 0
  | some n => n

/-- The reporting order of issues (design document 3): severity
descending, then source line ascending. -/
def issueLe (a b : Issue) : Prop :=
  sevRank a.severity < sevRank b.severity ∨
    (sevRank a.severity = sevRank b.severity ∧ lineVal a.line ≤ lineVal b.line)

instance : DecidableRel issueLe := fun a b => by
  unfold issueLe; infer_instance

instance : IsTotal Issue issueLe :=
  ⟨by intro a b; unfold issueLe; omega⟩

instance : IsTrans Issue issueLe :=
  ⟨by intro a b c; unfold issueLe; omega⟩

/-- Modelled from the spec: the stable sort imposed on emitted issues
(design document 3). -/
def sortIssues (l : List Issue) : List Issue := List.insertionSort issueLe l

/-- Modelled from the spec: per-issue penalty keyed to severity, high
much larger than medium larger than low (design document 4.3; the exact
constants are the documented choice left open by 9). -/
def penalty : Severity → Int
  | Severity.high => 30
  | Severity.medium => 15
  | Severity.low => 5

/-- The total penalty charged to one metric category by the fired
enabled rules. -/
def catPenalty (m : ContractModel) (cfg : Option AnalyzerConfig) (c : Cat) : Int :=
  (((enabledRules cfg).filter
      (fun r => (r.fires m).isSome && r.cats.contains c)).map
    (fun r => penalty r.severity)).sum

/-- Modelled from the spec: each category metric starts at 100, is
reduced by the per-issue penalties, and is floored at 0 (design document
4.3). -/
def catMetric (m : ContractModel) (cfg : Option AnalyzerConfig) (c : Cat) : Int :=
  max 0 (100 - catPenalty m cfg c)

/-- The four category metrics of the spec-modelled scorer. -/
def specMetrics (m : ContractModel) (cfg : Option AnalyzerConfig) : Metrics :=
  { performance := catMetric m cfg Cat.performance,
    security := catMetric m cfg Cat.security,
    gas_efficiency := catMetric m cfg Cat.gas_efficiency,
    code_quality := catMetric m cfg Cat.code_quality }

/-- Modelled from the spec: the overall score is the unweighted
arithmetic mean of the four categories, rounded to the nearest integer
(design document 4.3); for values in [0, 400] this is `(sum + 2) / 4`. -/
def specScore (m : ContractModel) (cfg : Option AnalyzerConfig) : Int :=
  (catMetric m cfg Cat.performance + catMetric m cfg Cat.security +
      catMetric m cfg Cat.gas_efficiency + catMetric m cfg Cat.code_quality + 2) / 4

/-- Modelled from the spec: the full response of the missing analyzer
binary on an already-parsed model (design document 4.2-4.3, 6). -/
def specAnalysisResult (m : ContractModel) (cfg : Option AnalyzerConfig) :
    AnalysisResults :=
  { score := specScore m cfg,
    metrics := specMetrics m cfg,
    issues := sortIssues (firedIssues m cfg) }

end SpecModel

/-- The issue list of a result is in reporting order: each adjacent pair
satisfies `issueLe` (severity descending, then line ascending). -/
def IssuesSorted (l : List Issue) : Prop := List.Chain' SpecModel.issueLe l

/-- All five `Math.random()` draws of an environment lie in `[0, 1)`, as
JavaScript guarantees. -/
def RandValid (rand : Fin 5 → Rat) : Prop := ∀ i, 0 ≤ rand i ∧ rand i < 1

/-- Modelled from the spec: conformance of an analyzer environment to the
missing binary — whenever the process invocation and the JSON parse both
succeed, the parsed response is the spec-modelled analysis of some parsed
contract model under the request configuration (design document 4.2-4.3,
6). -/
def ExternSpec (env : Lib.AnalyzerEnv) : Prop :=
  ∀ code cfg s r, env.exec code cfg = Except.ok s → env.parse s = Except.ok r →
    ∃ m : SpecModel.ContractModel, r = SpecModel.specAnalysisResult m cfg

/-- Every score and metric of a result lies in [0, 100]. -/
def ResultBounds (r : AnalysisResults) : Prop :=
  0 ≤ r.score ∧ r.score ≤ 100 ∧
  0 ≤ r.metrics.performance ∧ r.metrics.performance ≤ 100 ∧
  0 ≤ r.metrics.security ∧ r.metrics.security ≤ 100 ∧
  0 ≤ r.metrics.gas_efficiency ∧ r.metrics.gas_efficiency ≤ 100 ∧
  0 ≤ r.metrics.code_quality ∧ r.metrics.code_quality ≤ 100

/-- Bounds of one mock draw: `Math.floor(70 + r * 30)` lies in [70, 99]
whenever the draw `r` lies in [0, 1). -/
theorem mockEntry_bounds (r : Rat) (h0 : 0 ≤ r) (h1 : r < 1) :
    70 ≤ ⌊70 + r * 30⌋ ∧ ⌊70 + r * 30⌋ ≤ 99 := by
  constructor
  · exact Int.le_floor.mpr (by push_cast; linarith)
  · have h := Int.floor_lt.mpr (by push_cast; linarith : (70 : Rat) + r * 30 < (100 : Int))
    omega

/-- The mock fallback result satisfies the score and metric bounds. -/
theorem mock_resultBounds (code : String) (rand : Fin 5 → Rat)
    (hr : RandValid rand) : ResultBounds (getMockAnalysisResults code rand) := by
  have h0 := mockEntry_bounds (rand 0) (hr 0).1 (hr 0).2
  have h1 := mockEntry_bounds (rand 1) (hr 1).1 (hr 1).2
  have h2 := mockEntry_bounds (rand 2) (hr 2).1 (hr 2).2
  have h3 := mockEntry_bounds (rand 3) (hr 3).1 (hr 3).2
  have h4 := mockEntry_bounds (rand 4) (hr 4).1 (hr 4).2
  unfold ResultBounds getMockAnalysisResults
  dsimp only
  omega

/-- Each penalty constant is nonnegative. -/
theorem penalty_nonneg (s : Severity) : 0 ≤ SpecModel.penalty s := by
  cases s <;> simp [SpecModel.penalty]

/-- The total category penalty is nonnegative. -/
theorem catPenalty_nonneg (m : SpecModel.ContractModel)
    (cfg : Option AnalyzerConfig) (c : SpecModel.Cat) :
    0 ≤ SpecModel.catPenalty m cfg c := by
  unfold SpecModel.catPenalty
  apply List.sum_nonneg
  intro x hx
  obtain ⟨r, _, hrx⟩ := List.mem_map.mp hx
  exact hrx ▸ penalty_nonneg r.severity

/-- Each spec-modelled category metric lies in [0, 100]. -/
theorem catMetric_bounds (m : SpecModel.ContractModel)
    (cfg : Option AnalyzerConfig) (c : SpecModel.Cat) :
    0 ≤ SpecModel.catMetric m cfg c ∧ SpecModel.catMetric m cfg c ≤ 100 := by
  have h := catPenalty_nonneg m cfg c
  unfold SpecModel.catMetric
  omega

/-- The spec-modelled analysis result satisfies the score and metric
bounds. -/
theorem spec_resultBounds (m : SpecModel.ContractModel)
    (cfg : Option AnalyzerConfig) :
    ResultBounds (SpecModel.specAnalysisResult m cfg) := by
  have hp := catMetric_bounds m cfg SpecModel.Cat.performance
  have hs := catMetric_bounds m cfg SpecModel.Cat.security
  have hg := catMetric_bounds m cfg SpecModel.Cat.gas_efficiency
  have hq := catMetric_bounds m cfg SpecModel.Cat.code_quality
  unfold ResultBounds SpecModel.specAnalysisResult SpecModel.specMetrics SpecModel.specScore
  dsimp only
  omega

/-- A sorted issue list is in reporting order. -/
theorem sorted_issuesSorted {l : List Issue}
    (h : List.Sorted SpecModel.issueLe l) : IssuesSorted l :=
  List.Pairwise.chain' h

/-- The insertion sort of any issue list is in reporting order. -/
theorem sortIssues_issuesSorted (l : List Issue) :
    IssuesSorted (SpecModel.sortIssues l) :=
  sorted_issuesSorted (List.sorted_insertionSort SpecModel.issueLe l)

/-- The fixed mock issue list is in reporting order. -/
theorem mockIssues_issuesSorted : IssuesSorted mockIssues := by
  unfold IssuesSorted mockIssues
  refine List.chain'_cons.mpr ⟨?_, List.chain'_cons.mpr ⟨?_, List.chain'_singleton _⟩⟩ <;>
    exact Or.inl (by simp [SpecModel.sevRank])

/-- In any issue list in reporting order, a high-severity issue at line 42
occurs strictly before a low-severity issue at line 10. -/
theorem issuesSorted_high_before_low (l : List Issue) (hs : IssuesSorted l)
    (i j : Fin l.length)
    (hisev : (l.get i).severity = Severity.high) (hiline : (l.get i).line = some 42)
    (hjsev : (l.get j).severity = Severity.low) (hjline : (l.get j).line = some 10) :
    (i : Nat) < (j : Nat) := by
  have hpair : List.Sorted SpecModel.issueLe l :=
    List.chain'_iff_pairwise.mp hs
  by_contra hcon
  push_neg at hcon
  rcases Nat.lt_or_ge (j : Nat) (i : Nat) with hlt | hge
  · have hrel := hpair.rel_get_of_lt (a := j) (b := i) hlt
    unfold SpecModel.issueLe at hrel
    rw [hisev, hjsev] at hrel
    simp [SpecModel.sevRank] at hrel
  · have : (i : Nat) = (j : Nat) := le_antisymm hge hcon
    have : l.get i = l.get j := by
      congr 1
      exact Fin.ext this
    rw [this, hjsev] at hisev
    exact Severity.noConfusion hisev

/-- Path evaluation: with the binary absent, the integration returns the
mock result. -/
theorem analyzeContract_of_noBinary (env : Lib.AnalyzerEnv) (code : String)
    (cfg : Option AnalyzerConfig) (h : env.binaryExists = false) :
    Lib.analyzeContract env code cfg = getMockAnalysisResults code env.rand := by
  simp [Lib.analyzeContract, h]

/-- Path evaluation: with the process invocation throwing, the
integration returns the mock result. -/
theorem analyzeContract_of_execError (env : Lib.AnalyzerEnv) (code : String)
    (cfg : Option AnalyzerConfig) (e : String) (h : env.exec code cfg = Except.error e) :
    Lib.analyzeContract env code cfg = getMockAnalysisResults code env.rand := by
  cases hb : env.binaryExists <;> simp [Lib.analyzeContract, hb, h]

/-- Path evaluation: with the response parse throwing, the integration
returns the mock result. -/
theorem analyzeContract_of_parseError (env : Lib.AnalyzerEnv) (code : String)
    (cfg : Option AnalyzerConfig) (s e : String) (hs : env.exec code cfg = Except.ok s)
    (hp : env.parse s = Except.error e) :
    Lib.analyzeContract env code cfg = getMockAnalysisResults code env.rand := by
  cases hb : env.binaryExists <;> simp [Lib.analyzeContract, hb, hs, hp]

/-- Path evaluation: with the binary present and both the invocation and
the parse succeeding, the integration returns the parsed response. -/
theorem analyzeContract_of_ok (env : Lib.AnalyzerEnv) (code : String)
    (cfg : Option AnalyzerConfig) (s : String) (r : AnalysisResults)
    (hb : env.binaryExists = true) (hs : env.exec code cfg = Except.ok s)
    (hp : env.parse s = Except.ok r) :
    Lib.analyzeContract env code cfg = r := by
  simp [Lib.analyzeContract, hb, hs, hp]

/-- Error message of a failing process invocation. -/
def execFailMsg : String := "spawn failed"

/-- Error message of a failing JSON parse. -/
def parseFailMsg : String := "Unexpected token"

/-- A sample contract code string. -/
def sampleCode : String := "code"

/-- The empty string. -/
def emptyString : String := ""

/-- A stdout payload of a successful analyzer invocation. -/
def okResponse : String := "response"

/-- A parsed analyzer response used by concrete environments. -/
def okResult : AnalysisResults :=
  { score := 85,
    metrics := { performance := 90, security := 80, gas_efficiency := 75, code_quality := 95 },
    issues := [] }

/-- Environment in which the analyzer binary is absent and every
`Math.random()` draw is 0. -/
def envNoBinaryA : Lib.AnalyzerEnv :=
  { binaryExists := false,
    exec := fun _ _ => Except.error execFailMsg,
    parse := fun _ => Except.error parseFailMsg,
    rand := fun _ => 0 }

/-- Same as `envNoBinaryA` except every `Math.random()` draw is 1/2. -/
def envNoBinaryB : Lib.AnalyzerEnv :=
  { envNoBinaryA with rand := fun _ => 1/2 }

/-- Environment in which the binary is present and succeeds, with all
`Math.random()` draws 0. -/
def envBinaryC : Lib.AnalyzerEnv :=
  { binaryExists := true,
    exec := fun _ _ => Except.ok okResponse,
    parse := fun _ => Except.ok okResult,
    rand := fun _ => 0 }

/-- Same as `envBinaryC` except every `Math.random()` draw is 1/2. -/
def envBinaryD : Lib.AnalyzerEnv :=
  { envBinaryC with rand := fun _ => 1/2 }

/-- C1, counterexample.  Two executions of the analyzer integration on the
identical request (`sampleCode`, no config), both on the fallback path
(binary missing) and both with `Math.random()` draws inside [0, 1), return
different `AnalysisResults` values: the first has score ⌊70 + 0·30⌋ = 70,
the second ⌊70 + (1/2)·30⌋ = 85.  This refutes byte-identity of results
for identical `(code, config)` on the fallback path. -/
theorem analysis_determinism_fallback_cex :
    Lib.analyzeContract envNoBinaryA sampleCode none ≠
      Lib.analyzeContract envNoBinaryB sampleCode none := by
  intro h
  have h2 := congrArg AnalysisResults.score h
  norm_num [Lib.analyzeContract, envNoBinaryA, envNoBinaryB,
    getMockAnalysisResults] at h2

/-- C1, amended.  Analysis is a deterministic function of the request and
the observed environment: when the binary exists and the process
invocation and response parse both succeed, the result is independent of
the `Math.random()` draws, so two executions observing the same binary
response agree; on the fallback path the issues component is the fixed
mock list independent of code, config and draws (the score and metrics
there depend on the draws, so full byte-identity fails — see the
counterexample). -/
theorem analysis_deterministic_in_environment :
    (∀ (env₁ env₂ : Lib.AnalyzerEnv) (code : String) (cfg : Option AnalyzerConfig),
        env₁.binaryExists = true → env₂.binaryExists = true →
        env₁.exec code cfg = env₂.exec code cfg →
        (∀ s, env₁.parse s = env₂.parse s) →
        (∃ s r, env₁.exec code cfg = Except.ok s ∧ env₁.parse s = Except.ok r) →
        Lib.analyzeContract env₁ code cfg = Lib.analyzeContract env₂ code cfg) ∧
    (∀ (env : Lib.AnalyzerEnv) (code : String) (cfg : Option AnalyzerConfig),
        env.binaryExists = false →
        (Lib.analyzeContract env code cfg).issues = mockIssues) := by
  constructor
  · rintro env₁ env₂ code cfg h1 h2 hex hpa ⟨s, r, hs, hr⟩
    have hex2 : env₂.exec code cfg = Except.ok s := by rw [← hex]; exact hs
    have hpa2 : env₂.parse s = Except.ok r := by rw [← hpa]; exact hr
    rw [analyzeContract_of_ok env₁ code cfg s r h1 hs hr,
      analyzeContract_of_ok env₂ code cfg s r h2 hex2 hpa2]
  · intro env code cfg h
    simp [Lib.analyzeContract, h, getMockAnalysisResults]

/-- Witness for C1 amended: concrete environments realizing both parts. -/
theorem analysis_deterministic_in_environment_witness :
    Lib.analyzeContract envBinaryC sampleCode none =
      Lib.analyzeContract envBinaryD sampleCode none ∧
    (Lib.analyzeContract envNoBinaryA sampleCode none).issues = mockIssues :=
  ⟨analysis_deterministic_in_environment.1 envBinaryC envBinaryD sampleCode none
      rfl rfl rfl (fun _ => rfl) ⟨okResponse, okResult, rfl, rfl⟩,
    analysis_deterministic_in_environment.2 envNoBinaryA sampleCode none rfl⟩

/-- C2.  On every path of the analyzer integration — the external-binary
path, whose successful responses conform to the spec-modelled analyzer,
and the mock-fallback path, whose `Math.random()` draws lie in [0, 1) —
the produced result satisfies 0 ≤ score ≤ 100 and every metric lies in
[0, 100]. -/
theorem analysis_result_bounds (env : Lib.AnalyzerEnv) (code : String)
    (cfg : Option AnalyzerConfig) (hr : RandValid env.rand) (hx : ExternSpec env) :
    ResultBounds (Lib.analyzeContract env code cfg) := by
  cases hb : env.binaryExists
  · rw [analyzeContract_of_noBinary env code cfg hb]
    exact mock_resultBounds code env.rand hr
  · cases hex : env.exec code cfg with
    | error e =>
      rw [analyzeContract_of_execError env code cfg e hex]
      exact mock_resultBounds code env.rand hr
    | ok s =>
      cases hpa : env.parse s with
      | error e =>
        rw [analyzeContract_of_parseError env code cfg s e hex hpa]
        exact mock_resultBounds code env.rand hr
      | ok r =>
        obtain ⟨m, hm⟩ := hx code cfg s r hex hpa
        rw [analyzeContract_of_ok env code cfg s r hb hex hpa, hm]
        exact spec_resultBounds m cfg

/-- Witness for C2 at a concrete environment on the fallback path. -/
theorem analysis_result_bounds_witness :
    ResultBounds (Lib.analyzeContract envNoBinaryA sampleCode none) :=
  analysis_result_bounds envNoBinaryA sampleCode none
    (fun _ => ⟨le_refl 0, zero_lt_one⟩)
    (fun _ _ _ _ hs _ => absurd hs (by simp [envNoBinaryA]))

/-- C3.  The boundary operations — the server action `analyzeContract`
and `convertContract` — always return a determinate value (a result or
an explicit null): in every environment (binary present or absent,
invocation or parse failing arbitrarily) the outcome is a returned value,
never a propagated exception, because the existence check precedes the
spawn and the spawn and parse sit inside the try/catch. -/
theorem boundary_actions_total (aenv : Actions.ActionEnv) (code : String)
    (cfg : Option AnalyzerConfig) (cenv : Onchain.ConverterEnv) (ccode : String)
    (ccfg : ConversionConfig) :
    (∃ v, (Actions.analyzeContract aenv code cfg).1 = TsOutcome.value v) ∧
    (∃ w, Onchain.convertContract cenv ccode ccfg = TsOutcome.value w) := by
  constructor
  · unfold Actions.analyzeContract Actions.analyzeRun
    cases hb : aenv.binaryExists
    · exact ⟨none, by simp⟩
    · cases hex : aenv.exec code cfg with
      | error e => exact ⟨none, by simp [hex]⟩
      | ok s =>
        cases hpa : aenv.parse s with
        | error e => exact ⟨none, by simp [hex, hpa]⟩
        | ok r => exact ⟨some r, by simp [hex, hpa]⟩
  · unfold Onchain.convertContract Onchain.convertRun
    cases hex : cenv.exec ccode ccfg with
    | error e => exact ⟨none, by simp⟩
    | ok s =>
      cases hpa : cenv.parse s with
      | error e => exact ⟨none, by simp [hpa]⟩
      | ok r => exact ⟨some r, by simp [hpa]⟩

/-- C4.  Every result produced by the analyzer integration — a mock
fallback result or a spec-conformant external response — has its issues
in reporting order (severity descending, then line ascending); and in
any issue list in that order, a high-severity issue at line 42 strictly
precedes a low-severity issue at line 10. -/
theorem analysis_issues_sorted (env : Lib.AnalyzerEnv) (code : String)
    (cfg : Option AnalyzerConfig) (hx : ExternSpec env) :
    IssuesSorted (Lib.analyzeContract env code cfg).issues ∧
    (∀ (l : List Issue), IssuesSorted l →
      ∀ (i j : Fin l.length),
        (l.get i).severity = Severity.high → (l.get i).line = some 42 →
        (l.get j).severity = Severity.low → (l.get j).line = some 10 →
        (i : Nat) < (j : Nat)) := by
  constructor
  · cases hb : env.binaryExists
    · rw [analyzeContract_of_noBinary env code cfg hb]
      exact mockIssues_issuesSorted
    · cases hex : env.exec code cfg with
      | error e =>
        rw [analyzeContract_of_execError env code cfg e hex]
        exact mockIssues_issuesSorted
      | ok s =>
        cases hpa : env.parse s with
        | error e =>
          rw [analyzeContract_of_parseError env code cfg s e hex hpa]
          exact mockIssues_issuesSorted
        | ok r =>
          obtain ⟨m, hm⟩ := hx code cfg s r hex hpa
          rw [analyzeContract_of_ok env code cfg s r hb hex hpa, hm]
          exact sortIssues_issuesSorted _
  · exact fun l hs i j h1 h2 h3 h4 =>
      issuesSorted_high_before_low l hs i j h1 h2 h3 h4

/-- Witness for C4 at a concrete fallback environment. -/
theorem analysis_issues_sorted_witness :
    IssuesSorted (Lib.analyzeContract envNoBinaryA sampleCode none).issues :=
  (analysis_issues_sorted envNoBinaryA sampleCode none
    (fun _ _ _ _ hs _ => absurd hs (by simp [envNoBinaryA]))).1

/-- A config restricting the enabled rules to the reentrancy rule. -/
def cfgReentrancyOnly : AnalyzerConfig :=
  { enabled_rules := [SpecModel.reentrancyName], custom_weights := none }

/-- A fixture exhibiting both a reentrancy pattern (external call before
the state write in `withdraw`) and an unbounded-storage pattern (an
ever-growing log vector). -/
def bothPatternsFixture : String :=
  "#[ink::contract] mod vault \x7b history: Vec<u64>, fn withdraw(&mut self) \x7b transfer(); self.balance = 0; self.history.push(now()); \x7d \x7d"

/-- C5, counterexample.  On the fallback path (analyzer binary missing),
analyzing a fixture that exhibits both a reentrancy and an
unbounded-storage pattern under `enabled_rules = ["reentrancy"]` yields
three issues, not exactly one: the fallback ignores the configuration
entirely. -/
theorem config_gating_fallback_cex :
    (Lib.analyzeContract envNoBinaryA bothPatternsFixture
        (some cfgReentrancyOnly)).issues.length = 3 ∧
    (Lib.analyzeContract envNoBinaryA bothPatternsFixture
        (some cfgReentrancyOnly)).issues.length ≠ 1 := by
  have h : (Lib.analyzeContract envNoBinaryA bothPatternsFixture
      (some cfgReentrancyOnly)).issues = mockIssues := by
    rw [analyzeContract_of_noBinary envNoBinaryA bothPatternsFixture
      (some cfgReentrancyOnly) rfl]
    rfl
  rw [h]
  simp [mockIssues]

/-- C5, amended.  Config gating holds on the spec-modelled analyzer: with
`enabled_rules = ["reentrancy"]`, a model exhibiting both a reentrancy
and an unbounded-storage pattern yields exactly one issue, the
high-severity reentrancy one.  On the fallback path the configuration is
ignored and the result always carries the fixed three-issue mock list. -/
theorem config_gating_amended :
    (∀ (m : SpecModel.ContractModel) (lr ls : Nat),
        m.reentrancyLine = some lr → m.unboundedStorageLine = some ls →
        (SpecModel.specAnalysisResult m (some cfgReentrancyOnly)).issues =
          [SpecModel.specIssue SpecModel.reentrancyRule lr] ∧
        (SpecModel.specIssue SpecModel.reentrancyRule lr).severity = Severity.high) ∧
    (∀ (env : Lib.AnalyzerEnv) (code : String) (cfg : Option AnalyzerConfig),
        env.binaryExists = false →
        (Lib.analyzeContract env code cfg).issues = mockIssues) := by
  constructor
  · intro m lr ls hlr hls
    constructor
    · show SpecModel.sortIssues
        (SpecModel.firedIssues m (some cfgReentrancyOnly)) = _
      have henabled : SpecModel.enabledRules (some cfgReentrancyOnly) =
          [SpecModel.reentrancyRule] := by
        simp [SpecModel.enabledRules, cfgReentrancyOnly, SpecModel.builtinRules,
          SpecModel.reentrancyRule, SpecModel.unboundedStorageRule,
          SpecModel.missingEventRule, SpecModel.uncheckedArithRule,
          SpecModel.reentrancyName, SpecModel.unboundedStorageName,
          SpecModel.missingEventName, SpecModel.uncheckedArithName,
          List.filter]
      rw [SpecModel.firedIssues, henabled]
      simp [SpecModel.reentrancyRule, hlr, SpecModel.sortIssues]
    · rfl
  · intro env code cfg h
    rw [analyzeContract_of_noBinary env code cfg h]
    rfl

/-- A model exhibiting a reentrancy pattern at line 7 and an
unbounded-storage pattern at line 9. -/
def modelBoth : SpecModel.ContractModel :=
  { reentrancyLine := some 7, unboundedStorageLine := some 9,
    missingEventLine := none, uncheckedArithLine := none }

/-- Witness for C5 amended on a concrete model and environment. -/
theorem config_gating_amended_witness :
    (SpecModel.specAnalysisResult modelBoth (some cfgReentrancyOnly)).issues =
      [SpecModel.specIssue SpecModel.reentrancyRule 7] ∧
    (Lib.analyzeContract envNoBinaryA sampleCode none).issues = mockIssues :=
  ⟨(config_gating_amended.1 modelBoth 7 9 rfl rfl).1,
    config_gating_amended.2 envNoBinaryA sampleCode none rfl⟩

/-- C6.  Dialect detection precedes analysis in both page handlers: any
input whose trimmed text contains neither an Ink! contract attribute
(`#[ink::contract]` or `#[contract]`) nor the Solidity structural cues
(no `pragma` and no `contract` token) is rejected with a diagnostic and
the analyzer is never invoked. -/
theorem dialect_detection_rejects_unrecognized (code : String)
    (h1 : containsSub (trimS code) inkAttrLong = false)
    (h2 : containsSub (trimS code) inkAttrShort = false)
    (h3 : containsSub (trimS code) tokenPragma = false)
    (h4 : containsSub (trimS code) tokenContract = false) :
    (∃ m, Page.handleAnalyzeV1 code = Page.HandleOutcome.rejected m) ∧
    (∃ m, Page.handleAnalyzeV2 code = Page.HandleOutcome.rejected m) := by
  unfold Page.handleAnalyzeV1 Page.handleAnalyzeV2
  cases he : (trimS code == emptyString) <;>
    simp [emptyString] at he <;>
    simp [he, h1, h2, h4, emptyString]

/-- A fixture containing no contract cues at all. -/
def noCueFixture : String := "hello world"

/-- Witness for C6 on a concrete cue-free fixture. -/
theorem dialect_detection_rejects_unrecognized_witness :
    (∃ m, Page.handleAnalyzeV1 noCueFixture = Page.HandleOutcome.rejected m) ∧
    (∃ m, Page.handleAnalyzeV2 noCueFixture = Page.HandleOutcome.rejected m) :=
  dialect_detection_rejects_unrecognized noCueFixture
    (by decide) (by decide) (by decide) (by decide)

/-- The Ink! target dialect tag. -/
def targetInk : String := "ink"

/-- The Solidity target dialect tag. -/
def targetSolidity : String := "solidity"

/-- An unrecognized target dialect tag. -/
def targetCobol : String := "cobol"

/-- Modelled from the spec: conformance of the converter invocation to
the missing converter binary — a request whose target is not a
recognized dialect fails with `ConfigError`, surfacing as a non-zero
exit, so `execSync` can return stdout successfully only for a recognized
target (design document 6, 7). -/
def ConvExecSpec (env : Onchain.ConverterEnv) : Prop :=
  ∀ code cfg s, env.exec code cfg = Except.ok s →
    cfg.target = targetInk ∨ cfg.target = targetSolidity

/-- Modelled from the spec: conformance of the parsed converter response
— every well-formed `ConversionResult` carries a recognized target
dialect tag (design document 6). -/
def ConvParseSpec (env : Onchain.ConverterEnv) : Prop :=
  ∀ s r, env.parse s = Except.ok r →
    r.targetType = targetInk ∨ r.targetType = targetSolidity

/-- Path evaluation: with the converter invocation throwing, the
wrapper returns null. -/
theorem convertContract_of_execError (env : Onchain.ConverterEnv) (code : String)
    (cfg : ConversionConfig) (e : String) (h : env.exec code cfg = Except.error e) :
    Onchain.convertContract env code cfg = TsOutcome.value none := by
  simp [Onchain.convertContract, Onchain.convertRun, h]

/-- Path evaluation: with the converter response parse throwing, the
wrapper returns null. -/
theorem convertContract_of_parseError (env : Onchain.ConverterEnv) (code : String)
    (cfg : ConversionConfig) (s e : String) (hs : env.exec code cfg = Except.ok s)
    (hp : env.parse s = Except.error e) :
    Onchain.convertContract env code cfg = TsOutcome.value none := by
  simp [Onchain.convertContract, Onchain.convertRun, hs, hp]

/-- Path evaluation: with the invocation and the parse succeeding, the
wrapper returns the parsed conversion result. -/
theorem convertContract_of_ok (env : Onchain.ConverterEnv) (code : String)
    (cfg : ConversionConfig) (s : String) (r : ConversionResult)
    (hs : env.exec code cfg = Except.ok s) (hp : env.parse s = Except.ok r) :
    Onchain.convertContract env code cfg = TsOutcome.value (some r) := by
  simp [Onchain.convertContract, Onchain.convertRun, hs, hp]

/-- C7.  Against a spec-conformant converter binary, a conversion request
with target "cobol" returns null — no partial output — and every
successful conversion result carries a target type in
\x7b"ink", "solidity"\x7d. -/
theorem unknown_target_no_partial_output (env : Onchain.ConverterEnv)
    (hx : ConvExecSpec env) (hp : ConvParseSpec env) :
    (∀ (code : String) (opt : Option Bool),
        Onchain.convertContract env code { target := targetCobol, optimize := opt } =
          TsOutcome.value none) ∧
    (∀ (code : String) (cfg : ConversionConfig) (r : ConversionResult),
        Onchain.convertContract env code cfg = TsOutcome.value (some r) →
        r.targetType = targetInk ∨ r.targetType = targetSolidity) := by
  constructor
  · intro code opt
    cases hex : env.exec code { target := targetCobol, optimize := opt } with
    | error e => exact convertContract_of_execError env code _ e hex
    | ok s =>
      have h := hx code { target := targetCobol, optimize := opt } s hex
      rcases h with h | h <;>
        exact absurd h (by simp [targetCobol, targetInk, targetSolidity])
  · intro code cfg r h
    cases hex : env.exec code cfg with
    | error e =>
      rw [convertContract_of_execError env code cfg e hex] at h
      simp at h
    | ok s =>
      cases hpa : env.parse s with
      | error e2 =>
        rw [convertContract_of_parseError env code cfg s e2 hex hpa] at h
        simp at h
      | ok r2 =>
        rw [convertContract_of_ok env code cfg s r2 hex hpa] at h
        simp [TsOutcome.value.injEq] at h
        exact h ▸ hp s r2 hpa

/-- A converter environment whose invocation always fails. -/
def envConvFail : Onchain.ConverterEnv :=
  { exec := fun _ _ => Except.error execFailMsg,
    parse := fun _ => Except.error parseFailMsg }

/-- Witness for C7 at a concrete environment and the "cobol" target. -/
theorem unknown_target_no_partial_output_witness :
    Onchain.convertContract envConvFail sampleCode
      { target := targetCobol, optimize := none } = TsOutcome.value none :=
  (unknown_target_no_partial_output envConvFail
      (fun _ _ _ hs => absurd hs (by simp [envConvFail]))
      (fun _ _ hs => absurd hs (by simp [envConvFail]))).1 sampleCode none

/-- The analyzer integration took its fallback path: the binary is
missing, the invocation threw, or the response parse threw. -/
def FallbackTaken (env : Lib.AnalyzerEnv) (code : String)
    (cfg : Option AnalyzerConfig) : Prop :=
  env.binaryExists = false ∨
    (∃ e, env.exec code cfg = Except.error e) ∨
    (∃ s e, env.exec code cfg = Except.ok s ∧ env.parse s = Except.error e)

/-- Every score and metric of a result lies in the mock range [70, 99]. -/
def MockRange (r : AnalysisResults) : Prop :=
  70 ≤ r.score ∧ r.score ≤ 99 ∧
  70 ≤ r.metrics.performance ∧ r.metrics.performance ≤ 99 ∧
  70 ≤ r.metrics.security ∧ r.metrics.security ≤ 99 ∧
  70 ≤ r.metrics.gas_efficiency ∧ r.metrics.gas_efficiency ≤ 99 ∧
  70 ≤ r.metrics.code_quality ∧ r.metrics.code_quality ≤ 99

/-- The mock fallback result has score and metrics in [70, 99]. -/
theorem mock_mockRange (code : String) (rand : Fin 5 → Rat)
    (hr : RandValid rand) : MockRange (getMockAnalysisResults code rand) := by
  have h0 := mockEntry_bounds (rand 0) (hr 0).1 (hr 0).2
  have h1 := mockEntry_bounds (rand 1) (hr 1).1 (hr 1).2
  have h2 := mockEntry_bounds (rand 2) (hr 2).1 (hr 2).2
  have h3 := mockEntry_bounds (rand 3) (hr 3).1 (hr 3).2
  have h4 := mockEntry_bounds (rand 4) (hr 4).1 (hr 4).2
  unfold MockRange getMockAnalysisResults
  dsimp only
  omega

/-- C8.  Whenever the analyzer integration takes its fallback path, the
returned result equals the mock result: its issues array is the one
fixed three-element list — high severity at line 42, medium at line 56,
low at line 78, with the fixed messages and recommendations —
independent of the input code and config, and the score and all four
metrics lie in [70, 99]. -/
theorem fallback_fixed_issue_list (env : Lib.AnalyzerEnv) (code : String)
    (cfg : Option AnalyzerConfig) (hf : FallbackTaken env code cfg)
    (hr : RandValid env.rand) :
    Lib.analyzeContract env code cfg = getMockAnalysisResults code env.rand ∧
    (Lib.analyzeContract env code cfg).issues =
      [ { severity := Severity.high, message := mockMsgHigh,
          line := some 42, recommendation := some mockRecHigh },
        { severity := Severity.medium, message := mockMsgMedium,
          line := some 56, recommendation := some mockRecMedium },
        { severity := Severity.low, message := mockMsgLow,
          line := some 78, recommendation := some mockRecLow } ] ∧
    MockRange (Lib.analyzeContract env code cfg) := by
  have heq : Lib.analyzeContract env code cfg = getMockAnalysisResults code env.rand := by
    rcases hf with h | ⟨e, h⟩ | ⟨s, e, hs, hp⟩
    · exact analyzeContract_of_noBinary env code cfg h
    · exact analyzeContract_of_execError env code cfg e h
    · exact analyzeContract_of_parseError env code cfg s e hs hp
  refine ⟨heq, ?_, ?_⟩
  · rw [heq]; rfl
  · rw [heq]; exact mock_mockRange code env.rand hr

/-- Witness for C8 at a concrete fallback environment. -/
theorem fallback_fixed_issue_list_witness :
    Lib.analyzeContract envNoBinaryA sampleCode none =
      getMockAnalysisResults sampleCode envNoBinaryA.rand ∧
    (Lib.analyzeContract envNoBinaryA sampleCode none).issues =
      [ { severity := Severity.high, message := mockMsgHigh,
          line := some 42, recommendation := some mockRecHigh },
        { severity := Severity.medium, message := mockMsgMedium,
          line := some 56, recommendation := some mockRecMedium },
        { severity := Severity.low, message := mockMsgLow,
          line := some 78, recommendation := some mockRecLow } ] ∧
    MockRange (Lib.analyzeContract envNoBinaryA sampleCode none) :=
  fallback_fixed_issue_list envNoBinaryA sampleCode none (Or.inl rfl)
    (fun _ => ⟨le_refl 0, zero_lt_one⟩)

/-- The empty-string code field of a request body. -/
def emptyCodeJ : JVal := JVal.str emptyString

/-- The 400 bad-request response of the analysis routes, with an error
body and the analyzer not invoked. -/
def badRequest400 : RouteResult :=
  { status := 400, errorBody := true, analyzerInvoked := false }

/-- C9.  Both analysis routes reject a request body whose `code` field is
absent, not a string, or the empty string: the response has status 400
with an explicit error body, and the analyzer is never invoked. -/
theorem route_rejects_invalid_code (env : Lib.AnalyzerEnv)
    (config : Option AnalyzerConfig) (code : JVal)
    (h : code = JVal.undef ∨ isStringJ code = false ∨ code = emptyCodeJ) :
    RouteMock.POST code = badRequest400 ∧
    (RouteLib.POST env code config).1 = badRequest400 ∧
    (RouteLib.POST env code config).2 = none := by
  have hguard : (falsy code || !isStringJ code) = true := by
    rcases h with rfl | h | rfl
    · rfl
    · simp [h]
    · rfl
  unfold RouteMock.POST RouteLib.POST badRequest400
  rw [hguard]
  exact ⟨rfl, rfl, rfl⟩

/-- Witness for C9 at the empty-string code field. -/
theorem route_rejects_invalid_code_witness :
    RouteMock.POST emptyCodeJ = badRequest400 ∧
    (RouteLib.POST envNoBinaryA emptyCodeJ none).1 = badRequest400 ∧
    (RouteLib.POST envNoBinaryA emptyCodeJ none).2 = none :=
  route_rejects_invalid_code envNoBinaryA none emptyCodeJ (Or.inr (Or.inr rfl))

/-- Path evaluation: with the binary absent, the server action returns
null and spawns nothing. -/
theorem actionAnalyze_of_noBinary (env : Actions.ActionEnv) (code : String)
    (cfg : Option AnalyzerConfig) (h : env.binaryExists = false) :
    Actions.analyzeContract env code cfg = (TsOutcome.value none, false) := by
  simp [Actions.analyzeContract, Actions.analyzeRun, h]

/-- C10.  The server action spawns the external analyzer process only if
the existence check succeeded: when the binary is absent the action
returns null having spawned nothing, and any run that spawned the
process had the binary present. -/
theorem spawn_guarded_by_existence (env : Actions.ActionEnv) (code : String)
    (cfg : Option AnalyzerConfig) :
    (env.binaryExists = false →
      Actions.analyzeContract env code cfg = (TsOutcome.value none, false)) ∧
    ((Actions.analyzeContract env code cfg).2 = true → env.binaryExists = true) := by
  constructor
  · exact actionAnalyze_of_noBinary env code cfg
  · intro h
    by_contra hb
    have hb2 : env.binaryExists = false := by
      revert hb; cases env.binaryExists <;> simp
    rw [actionAnalyze_of_noBinary env code cfg hb2] at h
    exact Bool.noConfusion h

/-- An action environment with the binary absent. -/
def actionEnvNoBinary : Actions.ActionEnv :=
  { binaryExists := false,
    exec := fun _ _ => Except.error execFailMsg,
    parse := fun _ => Except.error parseFailMsg }

/-- An action environment with the binary present and succeeding. -/
def actionEnvOk : Actions.ActionEnv :=
  { binaryExists := true,
    exec := fun _ _ => Except.ok okResponse,
    parse := fun _ => Except.ok okResult }

/-- Witness for C10: with the binary absent the action returns null with
no spawn; with the binary present a spawning run implies existence. -/
theorem spawn_guarded_by_existence_witness :
    Actions.analyzeContract actionEnvNoBinary sampleCode none =
      (TsOutcome.value none, false) ∧
    actionEnvOk.binaryExists = true :=
  ⟨(spawn_guarded_by_existence actionEnvNoBinary sampleCode none).1 rfl,
    (spawn_guarded_by_existence actionEnvOk sampleCode none).2 rfl⟩
